import Mathlib

/-!
# AES-NI feature detection (`cpu_check.cpp`)

A shallow embedding of `Terra::Crypto::Cipher::CPUSupportsAES_NI` and of the
four bodies the preprocessor can select for it, followed by the properties
of the routine.

* The processor is a `QueryMechanism`: a map from the `cpuid` selector
  (function id) to the four registers the instruction leaves behind.
* Every `cpuid` the routine executes is appended to a `QueryLog`, the only
  piece of state a call can touch, so that the order and number of queries
  are observable.
* `std::uint32_t` values are naturals reduced modulo `2^32`; the `int`
  elements of the Windows `cpu_info` array are integers obtained by the
  two's complement reading of the register.
-/

namespace Terra.Crypto.Cipher

/-! ## Data model -/

/-- The four registers written by one `cpuid` instruction. -/
structure Regs where
  eax : Nat
  ebx : Nat
  ecx : Nat
  edx : Nat
  deriving DecidableEq, Repr

/-- Each register holds a 32-bit pattern. -/
def Regs.valid (r : Regs) : Prop :=
  r.eax < 2 ^ 32 ∧ r.ebx < 2 ^ 32 ∧ r.ecx < 2 ^ 32 ∧ r.edx < 2 ^ 32

instance (r : Regs) : Decidable r.valid :=
  inferInstanceAs (Decidable (r.eax < 2 ^ 32 ∧ r.ebx < 2 ^ 32 ∧ r.ecx < 2 ^ 32 ∧ r.edx < 2 ^ 32))

/-- The processor identification facility: selector in, registers out. -/
abbrev QueryMechanism := Nat → Regs

/-- A mechanism is well formed on the two selectors the routine can use. -/
def QueryMechanism.valid (q : QueryMechanism) : Prop :=
  (q 0).valid ∧ (q 1).valid

instance (q : QueryMechanism) : Decidable q.valid :=
  inferInstanceAs (Decidable ((q 0).valid ∧ (q 1).valid))

/-- The selectors queried so far, oldest first. -/
abbrev QueryLog := List Nat

/-- The preprocessor symbols that choose the body of `CPUSupportsAES_NI`.
`TERRA_USE_INTEL_AES_INTRINSICS` comes from `intel_intrinsics.h`; `WIN32`
and `linux` stand for the compiler-defined `_WIN32` and `__linux__`. -/
structure BuildConfig where
  TERRA_USE_INTEL_AES_INTRINSICS : Bool
  WIN32 : Bool
  linux : Bool
  deriving DecidableEq, Repr

/-! ## Machine integers -/

/-- Storing a value in a `std::uint32_t`. -/
def toUInt32 (x : Nat) : Nat := x % 2 ^ 32

/-- Storing a register in an `int`: the two's complement reading of its
32-bit pattern. -/
def toInt32 (x : Nat) : Int :=
  if x % 2 ^ 32 < 2 ^ 31 then ((x % 2 ^ 32 : Nat) : Int)
  else ((x % 2 ^ 32 : Nat) : Int) - 2 ^ 32

/-- The conversion of an `int` operand to `std::uint32_t` that the usual
arithmetic conversions perform before `int & std::uint32_t`. -/
def intToUInt32 (i : Int) : Nat := (i % 2 ^ 32).toNat

/-! ## The source -/

/-- The feature bit representing AES, bit 25 of `ecx`:
`constexpr std::uint32_t Intel_AES_Bit = 0x0200'0000;` -/
def Intel_AES_Bit : Nat := 0x02000000

/-- One execution of the `cpuid` instruction with the given function id:
the registers are those of the mechanism and the query is logged. -/
def cpuid (q : QueryMechanism) (function_id : Nat) (log : QueryLog) :
    Regs × QueryLog :=
  (q function_id, log ++ [function_id])

namespace Win32

/-- The `_WIN32` body: `__cpuid(int[4], int)` fills an array of `int`. -/
def CPUSupportsAES_NI (q : QueryMechanism) (log : QueryLog) : Bool × QueryLog :=
  let (r0, log1) := cpuid q 0 log
  let cpu_info0 : Int := toInt32 r0.eax
  if cpu_info0 < 1 then (false, log1)
  else
    let (r1, log2) := cpuid q 1 log1
    let cpu_info2 : Int := toInt32 r1.ecx
    ((intToUInt32 cpu_info2 &&& Intel_AES_Bit) != 0, log2)

end Win32

namespace Linux

/-- The `__linux__` body: `__cpuid` of `<cpuid.h>` fills four
`std::uint32_t` variables. -/
def CPUSupportsAES_NI (q : QueryMechanism) (log : QueryLog) : Bool × QueryLog :=
  let (r0, log1) := cpuid q 0 log
  let eax : Nat := toUInt32 r0.eax
  if eax < 1 then (false, log1)
  else
    let (r1, log2) := cpuid q 1 log1
    let ecx : Nat := toUInt32 r1.ecx
    ((ecx &&& Intel_AES_Bit) != 0, log2)

end Linux

namespace InlineAsm

/-- The fallback body: the locally defined `cpuid` emits the instruction as
inline assembly and fills four `std::uint32_t` variables. -/
def CPUSupportsAES_NI (q : QueryMechanism) (log : QueryLog) : Bool × QueryLog :=
  let (r0, log1) := cpuid q 0 log
  let eax : Nat := toUInt32 r0.eax
  if eax < 1 then (false, log1)
  else
    let (r1, log2) := cpuid q 1 log1
    let ecx : Nat := toUInt32 r1.ecx
    ((ecx &&& Intel_AES_Bit) != 0, log2)

end InlineAsm

namespace Stub

/-- The body compiled when `TERRA_USE_INTEL_AES_INTRINSICS` is undefined. -/
def CPUSupportsAES_NI (_q : QueryMechanism) (log : QueryLog) : Bool × QueryLog :=
  (false, log)

end Stub

/-- The function the translation unit exports under a build configuration,
following the nesting of the `#ifdef` blocks. -/
def CPUSupportsAES_NI (cfg : BuildConfig) (q : QueryMechanism) (log : QueryLog) :
    Bool × QueryLog :=
  if cfg.TERRA_USE_INTEL_AES_INTRINSICS then
    if cfg.WIN32 then Win32.CPUSupportsAES_NI q log
    else if cfg.linux then Linux.CPUSupportsAES_NI q log
    else InlineAsm.CPUSupportsAES_NI q log
  else Stub.CPUSupportsAES_NI q log

/-- Calling the routine `n` times in a row, threading the log through the
calls; the answers are collected in call order. -/
def callRepeatedly (cfg : BuildConfig) (q : QueryMechanism) :
    Nat → QueryLog → List Bool × QueryLog
  | 0, log => ([], log)
  | n + 1, log =>
    let (b, log1) := CPUSupportsAES_NI cfg q log
    let (bs, log2) := callRepeatedly cfg q n log1
    (b :: bs, log2)

/-- Acceleration enabled, `__linux__` defined. -/
def linuxBuild : BuildConfig := ⟨true, false, true⟩

/-- Acceleration enabled, `_WIN32` defined. -/
def win32Build : BuildConfig := ⟨true, true, false⟩

/-- Acceleration enabled, neither `_WIN32` nor `__linux__` defined. -/
def inlineAsmBuild : BuildConfig := ⟨true, false, false⟩

/-- Acceleration compiled out (on a Linux host). -/
def stubBuild : BuildConfig := ⟨false, false, true⟩

/-- A processor with AES-NI: leaf 0 reports maximum leaf `0x16`, leaf 1
reports `ecx = 0x7FFAFBFF`. -/
def aesProcessor : QueryMechanism := fun function_id =>
  if function_id = 0 then ⟨0x16, 0x756E6547, 0x6C65746E, 0x49656E69⟩
  else ⟨0x000906EA, 0x00100800, 0x7FFAFBFF, 0xBFEBFBFF⟩

/-- The same processor with the AES bit of leaf 1 cleared
(`ecx = 0x7DFAFBFF`). -/
def noAesProcessor : QueryMechanism := fun function_id =>
  if function_id = 0 then ⟨0x16, 0x756E6547, 0x6C65746E, 0x49656E69⟩
  else ⟨0x000906EA, 0x00100800, 0x7DFAFBFF, 0xBFEBFBFF⟩

/-- A substitute mechanism that answers every selector with the same four
fields, the third being `0x02000000`. -/
def constantMock : QueryMechanism := fun _ => ⟨0, 0, 0x02000000, 0⟩

/-- A substitute mechanism reporting maximum leaf 1 and only the AES bit. -/
def minimalMock : QueryMechanism := fun function_id =>
  if function_id = 0 then ⟨1, 0, 0, 0⟩ else ⟨0, 0, 0x02000000, 0⟩

/-- A mechanism whose leaf 0 reports maximum leaf 0 while leaf 1 would
advertise AES. -/
def oldProcessor : QueryMechanism := fun function_id =>
  if function_id = 0 then ⟨0, 0, 0, 0⟩ else ⟨0, 0, 0x02000000, 0⟩

/-- A mechanism whose leaf 0 reports maximum leaf `0x80000000` and whose
leaf 1 has the AES bit set. -/
def highLeafProcessor : QueryMechanism := fun function_id =>
  if function_id = 0 then ⟨0x80000000, 0, 0, 0⟩ else ⟨0, 0, 0x02000000, 0⟩

/-! ## Auxiliary facts -/

theorem and_two_pow_ne_zero (c k : Nat) :
    ((c &&& 2 ^ k) != 0) = c.testBit k := by
  cases h : c.testBit k
  · have hz : c &&& 2 ^ k = 0 := by
      apply Nat.eq_of_testBit_eq
      intro i
      rw [Nat.testBit_and, Nat.testBit_two_pow, Nat.zero_testBit]
      by_cases hi : k = i
      · subst hi; simp [h]
      · simp [hi]
    simp [hz]
  · have hb : (c &&& 2 ^ k).testBit k = true := by
      rw [Nat.testBit_and, Nat.testBit_two_pow_self, h]; rfl
    have hne : c &&& 2 ^ k ≠ 0 := by
      intro h0
      rw [h0, Nat.zero_testBit] at hb
      exact Bool.noConfusion hb
    simp [hne]

theorem Intel_AES_Bit_eq : Intel_AES_Bit = 2 ^ 25 := by decide

theorem and_AES_Bit_ne_zero (c : Nat) :
    ((c &&& Intel_AES_Bit) != 0) = c.testBit 25 := by
  rw [Intel_AES_Bit_eq]; exact and_two_pow_ne_zero c 25

theorem testBit_toUInt32 (c : Nat) :
    (toUInt32 c).testBit 25 = c.testBit 25 := by
  unfold toUInt32
  rw [Nat.testBit_mod_two_pow]; simp

theorem intToUInt32_toInt32 (x : Nat) : intToUInt32 (toInt32 x) = toUInt32 x := by
  unfold intToUInt32 toInt32 toUInt32
  split <;> omega

theorem toInt32_lt_one (x : Nat) (h : x < 2 ^ 32) :
    toInt32 x < 1 ↔ (x = 0 ∨ 2 ^ 31 ≤ x) := by
  unfold toInt32
  split <;> omega

theorem toUInt32_lt_one (x : Nat) (h : x < 2 ^ 32) : toUInt32 x < 1 ↔ x = 0 := by
  unfold toUInt32; omega

/-- The Linux body, with its local bindings resolved. -/
theorem linux_body_eq (q : QueryMechanism) (log : QueryLog) :
    Linux.CPUSupportsAES_NI q log =
      if toUInt32 (q 0).eax < 1 then (false, log ++ [0])
      else ((q 1).ecx.testBit 25, log ++ [0, 1]) := by
  simp only [Linux.CPUSupportsAES_NI, cpuid, and_AES_Bit_ne_zero, testBit_toUInt32,
    List.append_assoc, List.singleton_append]

/-- The inline-assembly body is the Linux body. -/
theorem inlineAsm_body_eq (q : QueryMechanism) (log : QueryLog) :
    InlineAsm.CPUSupportsAES_NI q log = Linux.CPUSupportsAES_NI q log := rfl

/-- The Windows body, with its local bindings resolved. -/
theorem win32_body_eq (q : QueryMechanism) (log : QueryLog) :
    Win32.CPUSupportsAES_NI q log =
      if toInt32 (q 0).eax < 1 then (false, log ++ [0])
      else ((q 1).ecx.testBit 25, log ++ [0, 1]) := by
  simp only [Win32.CPUSupportsAES_NI, cpuid, intToUInt32_toInt32, and_AES_Bit_ne_zero,
    testBit_toUInt32, List.append_assoc, List.singleton_append]

/-- The exported function under a configuration without `_WIN32`. -/
theorem CPUSupportsAES_NI_unsigned (cfg : BuildConfig) (q : QueryMechanism)
    (log : QueryLog) (hen : cfg.TERRA_USE_INTEL_AES_INTRINSICS = true)
    (hu : cfg.WIN32 = false) :
    CPUSupportsAES_NI cfg q log =
      if toUInt32 (q 0).eax < 1 then (false, log ++ [0])
      else ((q 1).ecx.testBit 25, log ++ [0, 1]) := by
  unfold CPUSupportsAES_NI
  rw [hen, hu]
  cases cfg.linux <;>
    simp only [inlineAsm_body_eq, linux_body_eq, if_true,
      Bool.false_eq_true, if_false]

/-- The exported function under a configuration with `_WIN32`. -/
theorem CPUSupportsAES_NI_signed (cfg : BuildConfig) (q : QueryMechanism)
    (log : QueryLog) (hen : cfg.TERRA_USE_INTEL_AES_INTRINSICS = true)
    (hw : cfg.WIN32 = true) :
    CPUSupportsAES_NI cfg q log =
      if toInt32 (q 0).eax < 1 then (false, log ++ [0])
      else ((q 1).ecx.testBit 25, log ++ [0, 1]) := by
  unfold CPUSupportsAES_NI
  rw [hen, hw]
  simp only [win32_body_eq, if_true]

/-- The exported function with acceleration compiled out. -/
theorem CPUSupportsAES_NI_disabled (cfg : BuildConfig) (q : QueryMechanism)
    (log : QueryLog) (hdis : cfg.TERRA_USE_INTEL_AES_INTRINSICS = false) :
    CPUSupportsAES_NI cfg q log = (false, log) := by
  unfold CPUSupportsAES_NI
  rw [hdis]
  rfl

/-- With acceleration enabled and leaf 0 reporting 0, every body stops
after the first query. -/
theorem CPUSupportsAES_NI_stops_at_leaf_zero (cfg : BuildConfig) (q : QueryMechanism)
    (log : QueryLog) (hen : cfg.TERRA_USE_INTEL_AES_INTRINSICS = true)
    (h0 : (q 0).eax = 0) :
    CPUSupportsAES_NI cfg q log = (false, log ++ [0]) := by
  cases hw : cfg.WIN32
  · rw [CPUSupportsAES_NI_unsigned cfg q log hen hw, h0]
    rfl
  · rw [CPUSupportsAES_NI_signed cfg q log hen hw, h0]
    rfl

/-- With acceleration enabled and leaf 0 reporting a maximum leaf from 1 up
(below `2^31` where the registers are read as `int`), every body goes on
to leaf 1 and returns its bit 25. -/
theorem CPUSupportsAES_NI_queries_leaf_one (cfg : BuildConfig) (q : QueryMechanism)
    (log : QueryLog) (hen : cfg.TERRA_USE_INTEL_AES_INTRINSICS = true)
    (hq : q.valid) (h1 : 1 ≤ (q 0).eax)
    (hw : cfg.WIN32 = true → (q 0).eax < 2 ^ 31) :
    CPUSupportsAES_NI cfg q log = ((q 1).ecx.testBit 25, log ++ [0, 1]) := by
  cases hc : cfg.WIN32
  · rw [CPUSupportsAES_NI_unsigned cfg q log hen hc]
    have hn : ¬ toUInt32 (q 0).eax < 1 := by
      rw [toUInt32_lt_one _ hq.1.1]; omega
    rw [if_neg hn]
  · rw [CPUSupportsAES_NI_signed cfg q log hen hc]
    have h31 := hw hc
    have hn : ¬ toInt32 (q 0).eax < 1 := by
      rw [toInt32_lt_one _ hq.1.1]; omega
    rw [if_neg hn]

/-- With acceleration enabled, a call either stops after leaf 0 with false
or queries leaf 0 and leaf 1 and returns bit 25 of the latter. -/
theorem CPUSupportsAES_NI_enabled_cases (cfg : BuildConfig) (q : QueryMechanism)
    (log : QueryLog) (hen : cfg.TERRA_USE_INTEL_AES_INTRINSICS = true) :
    CPUSupportsAES_NI cfg q log = (false, log ++ [0]) ∨
    CPUSupportsAES_NI cfg q log = ((q 1).ecx.testBit 25, log ++ [0, 1]) := by
  cases hc : cfg.WIN32
  · rw [CPUSupportsAES_NI_unsigned cfg q log hen hc]
    split
    · exact Or.inl rfl
    · exact Or.inr rfl
  · rw [CPUSupportsAES_NI_signed cfg q log hen hc]
    split
    · exact Or.inl rfl
    · exact Or.inr rfl

/-- The answer of a call does not depend on the log it starts from. -/
theorem CPUSupportsAES_NI_fst_log (cfg : BuildConfig) (q : QueryMechanism)
    (log₁ log₂ : QueryLog) :
    (CPUSupportsAES_NI cfg q log₁).1 = (CPUSupportsAES_NI cfg q log₂).1 := by
  cases hen : cfg.TERRA_USE_INTEL_AES_INTRINSICS
  · rw [CPUSupportsAES_NI_disabled cfg q log₁ hen, CPUSupportsAES_NI_disabled cfg q log₂ hen]
  · cases hc : cfg.WIN32
    · rw [CPUSupportsAES_NI_unsigned cfg q log₁ hen hc,
        CPUSupportsAES_NI_unsigned cfg q log₂ hen hc]
      split <;> rfl
    · rw [CPUSupportsAES_NI_signed cfg q log₁ hen hc,
        CPUSupportsAES_NI_signed cfg q log₂ hen hc]
      split <;> rfl

/-- The three enabled bodies agree whenever leaf 0 reports a value below
`2^31`. -/
theorem win32_body_eq_linux_body (q : QueryMechanism) (log : QueryLog)
    (hq : q.valid) (h31 : (q 0).eax < 2 ^ 31) :
    Win32.CPUSupportsAES_NI q log = Linux.CPUSupportsAES_NI q log := by
  rw [win32_body_eq, linux_body_eq]
  have h : toInt32 (q 0).eax < 1 ↔ toUInt32 (q 0).eax < 1 := by
    rw [toInt32_lt_one _ hq.1.1, toUInt32_lt_one _ hq.1.1]; omega
  by_cases hz : toUInt32 (q 0).eax < 1
  · rw [if_pos hz, if_pos (h.2 hz)]
  · rw [if_neg hz, if_neg (fun hh => hz (h.1 hh))]

/-- On the unsigned bodies the queries issued are leaf 0 alone when its
`eax` is below 1, and leaf 0 followed by leaf 1 otherwise. -/
theorem CPUSupportsAES_NI_unsigned_queries (cfg : BuildConfig) (q : QueryMechanism)
    (log : QueryLog) (hen : cfg.TERRA_USE_INTEL_AES_INTRINSICS = true)
    (hu : cfg.WIN32 = false) (hq : q.valid) :
    (CPUSupportsAES_NI cfg q log).2 =
      if (q 0).eax < 1 then log ++ [0] else log ++ [0, 1] := by
  by_cases hz : (q 0).eax < 1
  · rw [if_pos hz, CPUSupportsAES_NI_stops_at_leaf_zero cfg q log hen (by omega)]
  · rw [if_neg hz, CPUSupportsAES_NI_queries_leaf_one cfg q log hen hq (by omega)
      (fun hw => by rw [hu] at hw; exact Bool.noConfusion hw)]

/-! ## The detector on the unsigned variants -/

/-- C1: with acceleration enabled and the registers held as unsigned 32-bit
values (the Linux and inline-assembly bodies), the routine answers true
exactly when the `eax` of leaf 0 is at least 1 and bit 25 of the `ecx` of
leaf 1 is set, and false in every other case; in particular, with leaf 0
reporting at least 1, `ecx = 0x7FFAFBFF` gives true and `ecx = 0x7DFAFBFF`
gives false. -/
theorem CPUSupportsAES_NI_unsigned_iff (cfg : BuildConfig) (q : QueryMechanism)
    (log : QueryLog) (hen : cfg.TERRA_USE_INTEL_AES_INTRINSICS = true)
    (hu : cfg.WIN32 = false) (hq : q.valid) :
    ((CPUSupportsAES_NI cfg q log).1 = true ↔
        1 ≤ (q 0).eax ∧ (q 1).ecx.testBit 25 = true) ∧
    ((CPUSupportsAES_NI cfg q log).1 = false ↔
        ¬ (1 ≤ (q 0).eax ∧ (q 1).ecx.testBit 25 = true)) ∧
    (1 ≤ (q 0).eax → (q 1).ecx = 0x7FFAFBFF → (CPUSupportsAES_NI cfg q log).1 = true) ∧
    (1 ≤ (q 0).eax → (q 1).ecx = 0x7DFAFBFF → (CPUSupportsAES_NI cfg q log).1 = false) := by
  have h0 : toUInt32 (q 0).eax < 1 ↔ (q 0).eax = 0 := toUInt32_lt_one _ hq.1.1
  have hiff : (CPUSupportsAES_NI cfg q log).1 = true ↔
      1 ≤ (q 0).eax ∧ (q 1).ecx.testBit 25 = true := by
    rw [CPUSupportsAES_NI_unsigned cfg q log hen hu]
    by_cases hz : (q 0).eax = 0
    · rw [if_pos (h0.2 hz)]
      simp [hz]
    · rw [if_neg (fun h => hz (h0.1 h))]
      have : 1 ≤ (q 0).eax := by omega
      simp [this]
  refine ⟨hiff, ?_, ?_, ?_⟩
  · rw [← hiff]; simp
  · intro h1 hc
    exact hiff.2 ⟨h1, by rw [hc]; decide⟩
  · intro _ hc
    have hb : (q 1).ecx.testBit 25 = false := by rw [hc]; decide
    have hn : ¬ (CPUSupportsAES_NI cfg q log).1 = true := by
      rw [hiff, hb]; simp
    simpa using hn

theorem CPUSupportsAES_NI_unsigned_iff_witness :
    linuxBuild.TERRA_USE_INTEL_AES_INTRINSICS = true ∧ linuxBuild.WIN32 = false ∧
    aesProcessor.valid ∧
    1 ≤ (aesProcessor 0).eax ∧ (aesProcessor 1).ecx = 0x7FFAFBFF ∧
    (CPUSupportsAES_NI linuxBuild aesProcessor []).1 = true :=
  ⟨rfl, rfl, by decide, by decide, rfl,
    (CPUSupportsAES_NI_unsigned_iff linuxBuild aesProcessor [] rfl rfl (by decide)).2.2.1
      (by decide) rfl⟩

/-! ## The stub -/

/-- C2: with `TERRA_USE_INTEL_AES_INTRINSICS` undefined the routine returns
false for every identification mechanism, whatever the other preprocessor
symbols, and leaves the query log as it found it: no `cpuid` is issued. -/
theorem CPUSupportsAES_NI_compiled_out (cfg : BuildConfig) (q : QueryMechanism)
    (log : QueryLog) (hdis : cfg.TERRA_USE_INTEL_AES_INTRINSICS = false) :
    (CPUSupportsAES_NI cfg q log).1 = false ∧ (CPUSupportsAES_NI cfg q log).2 = log := by
  rw [CPUSupportsAES_NI_disabled cfg q log hdis]
  exact ⟨rfl, rfl⟩

theorem CPUSupportsAES_NI_compiled_out_witness :
    stubBuild.TERRA_USE_INTEL_AES_INTRINSICS = false ∧
    (aesProcessor 1).ecx.testBit 25 = true ∧
    (CPUSupportsAES_NI stubBuild aesProcessor []).1 = false ∧
    (CPUSupportsAES_NI stubBuild aesProcessor []).2 = [] :=
  ⟨rfl, by decide, CPUSupportsAES_NI_compiled_out stubBuild aesProcessor [] rfl⟩

/-! ## Bit extraction -/

/-- C3, as stated, fails: a substitute mechanism that answers every selector
with the third field `0x02000000` (bit 25 set) and first field 0 makes all
three enabled bodies return false. -/
theorem bit_set_with_leaf_zero_returns_false :
    constantMock.valid ∧ (constantMock 1).ecx = 0x02000000 ∧
    (constantMock 1).ecx.testBit 25 = true ∧
    (CPUSupportsAES_NI linuxBuild constantMock []).1 = false ∧
    (CPUSupportsAES_NI inlineAsmBuild constantMock []).1 = false ∧
    (CPUSupportsAES_NI win32Build constantMock []).1 = false := by
  decide

/-- C3 (amended): with acceleration enabled, a mechanism whose leaf 0
reports a maximum leaf of at least 1 (below `2^31` on the Windows body) and
whose leaf 1 `ecx` has bit 25 set, for instance `0x02000000`, makes the
routine return true; a mechanism whose leaf 1 `ecx` has bit 25 clear, for
instance 0 or any value ANDed with `0xFDFFFFFF`, makes it return false. -/
theorem CPUSupportsAES_NI_bit_extraction (cfg : BuildConfig) (q : QueryMechanism)
    (log : QueryLog) (hen : cfg.TERRA_USE_INTEL_AES_INTRINSICS = true)
    (hq : q.valid) :
    (1 ≤ (q 0).eax → (cfg.WIN32 = true → (q 0).eax < 2 ^ 31) →
      (q 1).ecx.testBit 25 = true → (CPUSupportsAES_NI cfg q log).1 = true) ∧
    (1 ≤ (q 0).eax → (cfg.WIN32 = true → (q 0).eax < 2 ^ 31) →
      (q 1).ecx = 0x02000000 → (CPUSupportsAES_NI cfg q log).1 = true) ∧
    ((q 1).ecx.testBit 25 = false → (CPUSupportsAES_NI cfg q log).1 = false) ∧
    ((q 1).ecx = 0x00000000 → (CPUSupportsAES_NI cfg q log).1 = false) ∧
    (∀ v : Nat, (q 1).ecx = v &&& 0xFDFFFFFF → (CPUSupportsAES_NI cfg q log).1 = false) := by
  have hset : 1 ≤ (q 0).eax → (cfg.WIN32 = true → (q 0).eax < 2 ^ 31) →
      (q 1).ecx.testBit 25 = true → (CPUSupportsAES_NI cfg q log).1 = true := by
    intro h1 hw hb
    rw [CPUSupportsAES_NI_queries_leaf_one cfg q log hen hq h1 hw]
    exact hb
  have hclear : (q 1).ecx.testBit 25 = false → (CPUSupportsAES_NI cfg q log).1 = false := by
    intro hb
    rcases CPUSupportsAES_NI_enabled_cases cfg q log hen with h | h
    · rw [h]
    · rw [h]; exact hb
  refine ⟨hset, ?_, hclear, ?_, ?_⟩
  · intro h1 hw hc
    exact hset h1 hw (by rw [hc]; decide)
  · intro hc
    exact hclear (by rw [hc]; decide)
  · intro v hc
    apply hclear
    rw [hc, Nat.testBit_and]
    have : Nat.testBit 0xFDFFFFFF 25 = false := by decide
    rw [this, Bool.and_false]

theorem CPUSupportsAES_NI_bit_extraction_witness :
    win32Build.TERRA_USE_INTEL_AES_INTRINSICS = true ∧ minimalMock.valid ∧
    1 ≤ (minimalMock 0).eax ∧ (win32Build.WIN32 = true → (minimalMock 0).eax < 2 ^ 31) ∧
    (minimalMock 1).ecx = 0x02000000 ∧
    (CPUSupportsAES_NI win32Build minimalMock []).1 = true :=
  ⟨rfl, by decide, by decide, fun _ => by decide, rfl,
    (CPUSupportsAES_NI_bit_extraction win32Build minimalMock [] rfl (by decide)).2.1
      (by decide) (fun _ => by decide) rfl⟩

/-! ## The bound check on leaf 0 -/

/-- C4: with acceleration enabled, when leaf 0 reports a maximum leaf below
1 the routine returns false whatever leaf 1 holds, and the only query it
adds to the log is selector 0. -/
theorem CPUSupportsAES_NI_index_bound_check (cfg : BuildConfig) (q : QueryMechanism)
    (log : QueryLog) (hen : cfg.TERRA_USE_INTEL_AES_INTRINSICS = true)
    (h0 : (q 0).eax < 1) :
    (CPUSupportsAES_NI cfg q log).1 = false ∧
    (CPUSupportsAES_NI cfg q log).2 = log ++ [0] ∧
    1 ∉ (CPUSupportsAES_NI cfg q []).2 := by
  have hz : (q 0).eax = 0 := by omega
  rw [CPUSupportsAES_NI_stops_at_leaf_zero cfg q log hen hz,
    CPUSupportsAES_NI_stops_at_leaf_zero cfg q [] hen hz]
  exact ⟨rfl, rfl, by decide⟩

theorem CPUSupportsAES_NI_index_bound_check_witness :
    win32Build.TERRA_USE_INTEL_AES_INTRINSICS = true ∧ (oldProcessor 0).eax < 1 ∧
    (oldProcessor 1).ecx.testBit 25 = true ∧
    (CPUSupportsAES_NI win32Build oldProcessor []).1 = false ∧
    (CPUSupportsAES_NI win32Build oldProcessor []).2 = [] ++ [0] ∧
    1 ∉ (CPUSupportsAES_NI win32Build oldProcessor []).2 :=
  ⟨rfl, by decide, by decide,
    CPUSupportsAES_NI_index_bound_check win32Build oldProcessor [] rfl (by decide)⟩

/-! ## Agreement of the platform variants -/

/-- C5, as stated, fails: on the pair of 32-bit responses where leaf 0
reports `eax = 0x80000000` and leaf 1 carries the AES bit, the Linux and
inline-assembly bodies return true and the Windows body, which holds `eax`
in an `int` and compares that with 1, returns false. -/
theorem platform_variants_differ_on_high_leaf :
    highLeafProcessor.valid ∧
    (CPUSupportsAES_NI linuxBuild highLeafProcessor []).1 = true ∧
    (CPUSupportsAES_NI inlineAsmBuild highLeafProcessor []).1 = true ∧
    (CPUSupportsAES_NI win32Build highLeafProcessor []).1 = false := by
  decide

/-- C5 (amended): for every pair of 32-bit register responses whose leaf 0
`eax` is below `2^31`, any two enabled configurations, hence the Windows,
Linux and inline-assembly bodies, return the same boolean and issue the
same queries. -/
theorem CPUSupportsAES_NI_platform_agreement (cfg₁ cfg₂ : BuildConfig)
    (q : QueryMechanism) (log : QueryLog)
    (hen₁ : cfg₁.TERRA_USE_INTEL_AES_INTRINSICS = true)
    (hen₂ : cfg₂.TERRA_USE_INTEL_AES_INTRINSICS = true)
    (hq : q.valid) (h31 : (q 0).eax < 2 ^ 31) :
    CPUSupportsAES_NI cfg₁ q log = CPUSupportsAES_NI cfg₂ q log := by
  by_cases h1 : 1 ≤ (q 0).eax
  · rw [CPUSupportsAES_NI_queries_leaf_one cfg₁ q log hen₁ hq h1 (fun _ => h31),
      CPUSupportsAES_NI_queries_leaf_one cfg₂ q log hen₂ hq h1 (fun _ => h31)]
  · rw [CPUSupportsAES_NI_stops_at_leaf_zero cfg₁ q log hen₁ (by omega),
      CPUSupportsAES_NI_stops_at_leaf_zero cfg₂ q log hen₂ (by omega)]

theorem CPUSupportsAES_NI_platform_agreement_witness :
    win32Build.TERRA_USE_INTEL_AES_INTRINSICS = true ∧
    linuxBuild.TERRA_USE_INTEL_AES_INTRINSICS = true ∧
    aesProcessor.valid ∧ (aesProcessor 0).eax < 2 ^ 31 ∧
    CPUSupportsAES_NI win32Build aesProcessor [] =
      CPUSupportsAES_NI linuxBuild aesProcessor [] ∧
    (CPUSupportsAES_NI linuxBuild aesProcessor []).1 = true :=
  ⟨rfl, rfl, by decide, by decide,
    CPUSupportsAES_NI_platform_agreement win32Build linuxBuild aesProcessor [] rfl rfl
      (by decide) (by decide),
    by decide⟩

/-! ## Totality -/

/-- C6: under every build configuration and for every identification
mechanism a call produces a boolean together with the extended log, there
being no other outcome, and each degraded case (acceleration compiled out,
leaf 0 reporting a maximum leaf below 1, bit 25 of the leaf 1 `ecx` clear)
produces the boolean false. -/
theorem CPUSupportsAES_NI_total (cfg : BuildConfig) (q : QueryMechanism)
    (log : QueryLog) :
    (∃ (b : Bool) (queries : List Nat),
      CPUSupportsAES_NI cfg q log = (b, log ++ queries)) ∧
    ((cfg.TERRA_USE_INTEL_AES_INTRINSICS = false ∨ (q 0).eax < 1 ∨
        (q 1).ecx.testBit 25 = false) →
      (CPUSupportsAES_NI cfg q log).1 = false) := by
  cases hen : cfg.TERRA_USE_INTEL_AES_INTRINSICS
  · refine ⟨⟨false, [], ?_⟩, fun _ => ?_⟩
    · rw [CPUSupportsAES_NI_disabled cfg q log hen, List.append_nil]
    · rw [CPUSupportsAES_NI_disabled cfg q log hen]
  · constructor
    · rcases CPUSupportsAES_NI_enabled_cases cfg q log hen with h | h
      · exact ⟨false, [0], h⟩
      · exact ⟨(q 1).ecx.testBit 25, [0, 1], h⟩
    · intro hdeg
      rcases hdeg with h | h | h
      · exact Bool.noConfusion h
      · rw [CPUSupportsAES_NI_stops_at_leaf_zero cfg q log hen (by omega)]
      · rcases CPUSupportsAES_NI_enabled_cases cfg q log hen with hc | hc
        · rw [hc]
        · rw [hc]; exact h

theorem CPUSupportsAES_NI_total_witness :
    (inlineAsmBuild.TERRA_USE_INTEL_AES_INTRINSICS = false ∨ (noAesProcessor 0).eax < 1 ∨
        (noAesProcessor 1).ecx.testBit 25 = false) ∧
    (CPUSupportsAES_NI inlineAsmBuild noAesProcessor []).1 = false :=
  ⟨Or.inr (Or.inr (by decide)),
    (CPUSupportsAES_NI_total inlineAsmBuild noAesProcessor []).2 (Or.inr (Or.inr (by decide)))⟩

/-! ## Determinism -/

/-- C7: for a fixed build configuration and a fixed identification
mechanism, the answer of a call is the same whatever queries were logged
before it, and `n` calls in a row all give that one answer. -/
theorem CPUSupportsAES_NI_deterministic (cfg : BuildConfig) (q : QueryMechanism)
    (log₁ log₂ : QueryLog) (n : Nat) :
    (CPUSupportsAES_NI cfg q log₁).1 = (CPUSupportsAES_NI cfg q log₂).1 ∧
    (callRepeatedly cfg q n log₁).1 =
      List.replicate n (CPUSupportsAES_NI cfg q log₂).1 := by
  refine ⟨CPUSupportsAES_NI_fst_log cfg q log₁ log₂, ?_⟩
  induction n generalizing log₁ with
  | zero => rfl
  | succ k ih =>
    simp only [callRepeatedly, List.replicate_succ]
    rw [ih (CPUSupportsAES_NI cfg q log₁).2, CPUSupportsAES_NI_fst_log cfg q log₁ log₂]

/-! ## The sequence of queries -/

/-- C9: `Intel_AES_Bit` is `0x02000000 = 2^25`, whose only set bit is bit
25, and for every bit pattern `c` the test `(c & Intel_AES_Bit) != 0` holds
exactly when `c / 2^25` is odd, both when `c` is stored in a
`std::uint32_t` and when it is stored in an `int`, possibly negative, and
converted back modulo `2^32` for the AND. -/
theorem Intel_AES_Bit_test (c : Nat) :
    Intel_AES_Bit = 0x02000000 ∧ Intel_AES_Bit = 2 ^ 25 ∧
    (∀ i : Nat, Intel_AES_Bit.testBit i = decide (i = 25)) ∧
    (((toUInt32 c &&& Intel_AES_Bit) != 0) = true ↔ c / 2 ^ 25 % 2 = 1) ∧
    (((intToUInt32 (toInt32 c) &&& Intel_AES_Bit) != 0) = true ↔ c / 2 ^ 25 % 2 = 1) ∧
    toInt32 0x82000000 < 0 ∧
    ((intToUInt32 (toInt32 0x82000000) &&& Intel_AES_Bit) != 0) = true := by
  have hu : ((toUInt32 c &&& Intel_AES_Bit) != 0) = true ↔ c / 2 ^ 25 % 2 = 1 := by
    rw [and_AES_Bit_ne_zero, testBit_toUInt32, Nat.testBit_to_div_mod]
    simp
  refine ⟨rfl, by decide, ?_, hu, ?_, by decide, by decide⟩
  · intro i
    rw [Intel_AES_Bit_eq, Nat.testBit_two_pow]
    by_cases h : i = 25
    · subst h; rfl
    · have h2 : ¬ 25 = i := fun e => h e.symm
      simp [h, h2]
  · rw [intToUInt32_toInt32]; exact hu

/-! ## What the answer depends on -/

/-- C10: on the unsigned bodies the answer is a function of two facts only,
whether the leaf 0 `eax` is at least 1 and bit 25 of the leaf 1 `ecx`: two
mechanisms that agree on both give the same answer, whatever their other
fields and bits. -/
theorem CPUSupportsAES_NI_depends_only_on (cfg : BuildConfig) (q₁ q₂ : QueryMechanism)
    (log₁ log₂ : QueryLog) (hen : cfg.TERRA_USE_INTEL_AES_INTRINSICS = true)
    (hu : cfg.WIN32 = false) (hq₁ : q₁.valid) (hq₂ : q₂.valid)
    (heax : 1 ≤ (q₁ 0).eax ↔ 1 ≤ (q₂ 0).eax)
    (hbit : (q₁ 1).ecx.testBit 25 = (q₂ 1).ecx.testBit 25) :
    (CPUSupportsAES_NI cfg q₁ log₁).1 = (CPUSupportsAES_NI cfg q₂ log₂).1 := by
  by_cases h1 : 1 ≤ (q₁ 0).eax
  · rw [CPUSupportsAES_NI_queries_leaf_one cfg q₁ log₁ hen hq₁ h1
        (fun hw => by rw [hu] at hw; exact Bool.noConfusion hw),
      CPUSupportsAES_NI_queries_leaf_one cfg q₂ log₂ hen hq₂ (heax.1 h1)
        (fun hw => by rw [hu] at hw; exact Bool.noConfusion hw)]
    exact hbit
  · have h2 : ¬ 1 ≤ (q₂ 0).eax := fun h => h1 (heax.2 h)
    rw [CPUSupportsAES_NI_stops_at_leaf_zero cfg q₁ log₁ hen (by omega),
      CPUSupportsAES_NI_stops_at_leaf_zero cfg q₂ log₂ hen (by omega)]

theorem CPUSupportsAES_NI_depends_only_on_witness :
    inlineAsmBuild.TERRA_USE_INTEL_AES_INTRINSICS = true ∧ inlineAsmBuild.WIN32 = false ∧
    aesProcessor.valid ∧ minimalMock.valid ∧
    (1 ≤ (aesProcessor 0).eax ↔ 1 ≤ (minimalMock 0).eax) ∧
    (aesProcessor 1).ecx.testBit 25 = (minimalMock 1).ecx.testBit 25 ∧
    (aesProcessor 0).ebx ≠ (minimalMock 0).ebx ∧ (aesProcessor 1).ecx ≠ (minimalMock 1).ecx ∧
    (CPUSupportsAES_NI inlineAsmBuild aesProcessor []).1 =
      (CPUSupportsAES_NI inlineAsmBuild minimalMock [0, 1]).1 :=
  ⟨rfl, rfl, by decide, by decide, by decide, by decide, by decide, by decide,
    CPUSupportsAES_NI_depends_only_on inlineAsmBuild aesProcessor minimalMock [] [0, 1]
      rfl rfl (by decide) (by decide) (by decide) (by decide)⟩

end Terra.Crypto.Cipher
